import Mathlib

/-!
Verification development for the KARE R2025 syllabus pipeline
(section tokenizer, content-shape inference engine, structural and
content-block validators).  Python sources are shallowly embedded as
executable Lean definitions; properties of the pipeline are then proved
about those definitions.

Python string/regex behaviour is modelled on ASCII data: character
classes (whitespace, digits, word characters) and case folding follow
the ASCII fragment that the pipeline's inputs use.
-/

set_option maxRecDepth 10000

deriving instance DecidableEq for Except

/- ===================== shared character/string helpers ===================== -/

/-- Python whitespace characters (the ASCII part of `str.strip` / `\s`). -/
def isPySpace (c : Char) : Bool :=
  c == ' ' || c == '\t' || c == '\n' || c == '\r' || c == Char.ofNat 11 || c == Char.ofNat 12

/-- Python `str.lstrip()` on a character list. -/
def pyLstripChars (cs : List Char) : List Char :=
  cs.dropWhile isPySpace

/-- Python `str.strip()` on a character list. -/
def pyStripChars (cs : List Char) : List Char :=
  ((cs.dropWhile isPySpace).reverse.dropWhile isPySpace).reverse

/-- Python `str.strip()`. -/
def pyStrip (s : String) : String :=
  String.mk (pyStripChars s.data)

/-- Python `str.lower()` (ASCII case folding). -/
def pyLower (s : String) : String :=
  String.mk (s.data.map Char.toLower)

/-- Case-insensitive literal match of `pat` at the head of `cs`; returns the rest. -/
def stripCI : List Char → List Char → Option (List Char)
  | [], cs => some cs
  | _ :: _, [] => none
  | p :: ps, c :: cs => if p.toLower = c.toLower then stripCI ps cs else none

/-- Whether the first list occurs literally at the head of the second. -/
def isPreAt : List Char → List Char → Bool
  | [], _ => true
  | _ :: _, [] => false
  | a :: as, b :: bs => a == b && isPreAt as bs

/-- Whether `needle` occurs as a contiguous sublist of `hay` (Python `in`). -/
def containsSub (needle : List Char) : List Char → Bool
  | [] => needle.isEmpty
  | c :: t => isPreAt needle (c :: t) || containsSub needle t

/-- Python `needle in hay` on strings. -/
def pyContains (hay needle : String) : Bool :=
  containsSub needle.data hay.data

/-- Decimal value of a digit run (Python `int` on a `\d+` capture). -/
def digitsToNat (ds : List Char) : Nat :=
  ds.foldl (fun a c => a * 10 + (c.toNat - 48)) 0

/-- Python `\w` (ASCII): letters, digits, underscore. -/
def isWordChar (c : Char) : Bool :=
  c.isAlphanum || c == '_'

/-- Python `str.splitlines()` restricted to `\n` separators:
no trailing empty line for text ending in a newline, `[]` for `""`. -/
def splitLinesAux (cur : List Char) : List Char → List (List Char)
  | [] => [cur.reverse]
  | c :: rest =>
    if c = '\n' then cur.reverse :: splitLinesAux [] rest
    else splitLinesAux (c :: cur) rest

/-- Python `str.splitlines()` (with `\n` as the only line separator). -/
def pySplitlines (s : String) : List String :=
  match s.data with
  | [] => []
  | cs =>
    let parts := splitLinesAux [] cs
    (if parts.getLast? = some [] then parts.dropLast else parts).map String.mk

/- ===================== read_courses.py : section tokenizer ===================== -/

namespace ReadCourses

/-- Section record of `read_courses.py`: level 0 is the preamble. -/
structure MarkdownSection where
  level : Nat
  title : String
  body : String
deriving DecidableEq

/-- The backtick character (code-fence marker). -/
def btick : Char := Char.ofNat 96

/-- Detects a fenced-code marker: a stripped line starting with three
backticks or three tildes; returns the full fence run. -/
def fenceInfo (stripped : List Char) : Option (List Char) :=
  match stripped with
  | c1 :: c2 :: c3 :: _ =>
    if (c1 = btick ∧ c2 = btick ∧ c3 = btick) ∨ (c1 = '~' ∧ c2 = '~' ∧ c3 = '~') then
      some (stripped.takeWhile (· = c1))
    else none
  | _ => none

/-- Valid Markdown header on a left-stripped line: one or more `#`,
then a space, then non-empty title text; returns level and trimmed title. -/
def headerInfo (stripped : List Char) : Option (Nat × String) :=
  let i := (stripped.takeWhile (· = '#')).length
  if i = 0 then none
  else
    match stripped.drop i with
    | ' ' :: rest =>
      if pyStripChars rest = [] then none else some (i, String.mk (pyStripChars rest))
    | _ => none

/-- Scanner state of `split_markdown_sections`. -/
structure TokState where
  curLevel : Nat
  curTitle : String
  curBody : List String
  inCode : Bool
  codeFence : Option (List Char)
  secs : List MarkdownSection
deriving DecidableEq

/-- Join accumulated body lines and strip (Python `"\n".join(body).strip()`). -/
def joinTrim (body : List String) : String :=
  String.mk (pyStripChars (String.intercalate "\n" body).data)

/-- The section flushed from the scanner's current accumulation. -/
def flushSec (st : TokState) : MarkdownSection :=
  ⟨st.curLevel, st.curTitle, joinTrim st.curBody⟩

/-- One line of the `split_markdown_sections` scan. -/
def tokStep (st : TokState) (line : String) : TokState :=
  let stripped := pyLstripChars line.data
  match fenceInfo stripped with
  | some fence =>
    if !st.inCode then
      { st with inCode := true, codeFence := some fence, curBody := st.curBody ++ [line] }
    else if st.codeFence = some fence then
      { st with inCode := false, codeFence := none, curBody := st.curBody ++ [line] }
    else
      { st with curBody := st.curBody ++ [line] }
  | none =>
    if st.inCode then
      { st with curBody := st.curBody ++ [line] }
    else
      match headerInfo stripped with
      | some (lvl, title) =>
        { st with secs := st.secs ++ [flushSec st],
                  curLevel := lvl, curTitle := title, curBody := [] }
      | none =>
        { st with curBody := st.curBody ++ [line] }

/-- Initial scanner state (level-0 preamble sentinel). -/
def initState : TokState :=
  ⟨0, "__PREAMBLE__", [], false, none, []⟩

/-- Scan the line list, flush the final section, and drop an empty preamble. -/
def tokenizeLines (lines : List String) : List MarkdownSection :=
  let st := lines.foldl tokStep initState
  let secs := st.secs ++ [flushSec st]
  match secs with
  | s :: rest => if s.title = "__PREAMBLE__" ∧ s.body = "" then rest else secs
  | [] => []

/-- `split_markdown_sections` of `read_courses.py`. -/
def split_markdown_sections (md_text : String) : List MarkdownSection :=
  tokenizeLines (pySplitlines md_text)

/-- Whether a raw line is a valid heading line. -/
def isHeadingLine (line : String) : Bool :=
  (headerInfo (pyLstripChars line.data)).isSome

/-- Titles of the valid heading lines, in order. -/
def headingTitles (lines : List String) : List String :=
  lines.filterMap (fun l => (headerInfo (pyLstripChars l.data)).map (·.2))

/-- Specification-side recursion: the sections the scanner emits (including
the final flush) from a given current level/title/body, assuming no fence
lines occur. -/
def emitAll (lvl : Nat) (title : String) (body : List String) :
    List String → List MarkdownSection
  | [] => [⟨lvl, title, joinTrim body⟩]
  | l :: ls =>
    match headerInfo (pyLstripChars l.data) with
    | some (i, t) => ⟨lvl, title, joinTrim body⟩ :: emitAll i t [] ls
    | none => emitAll lvl title (body ++ [l]) ls

/-- Tail of `emitAll` after the leading section. -/
def emitTail : List String → List MarkdownSection
  | [] => []
  | l :: ls =>
    match headerInfo (pyLstripChars l.data) with
    | some (i, t) => emitAll i t [] ls
    | none => emitTail ls

end ReadCourses

/- ===================== infer_content_shape.py : shape inference ===================== -/

namespace InferContentShape

/-- Course category enumeration (stable values). -/
inductive CourseCategory
  | FCM | FCE | PCM | PCE | SEM | SEE | MDM | MDE
deriving DecidableEq

/-- The `.value` string of a category. -/
def CourseCategory.value : CourseCategory → String
  | .FCM => "FCM" | .FCE => "FCE" | .PCM => "PCM" | .PCE => "PCE"
  | .SEM => "SEM" | .SEE => "SEE" | .MDM => "MDM" | .MDE => "MDE"

/-- Course type enumeration (stable values). -/
inductive CourseType
  | TC | PC | IC_T | IC_P | SC
deriving DecidableEq

/-- The `.value` string of a course type. -/
def CourseType.value : CourseType → String
  | .TC => "TC" | .PC => "PC" | .IC_T => "IC-T" | .IC_P => "IC-P" | .SC => "SC"

/-- Content-shape enumeration. -/
inductive ContentShape
  | ACADEMIC_THEORY | ACADEMIC_INTEGRATED | SKILL_PRACTICE | PROJECT
deriving DecidableEq

/-- The `.value` string of a content shape. -/
def ContentShape.value : ContentShape → String
  | .ACADEMIC_THEORY => "academic_theory"
  | .ACADEMIC_INTEGRATED => "academic_integrated"
  | .SKILL_PRACTICE => "skill_practice"
  | .PROJECT => "project"

/-- Policy version string. -/
def POLICY_VERSION : String := "R2025_v1.0"

/-- Capstone keywords for title detection. -/
def CAPSTONE_KEYWORDS : List String :=
  ["project", "capstone", "major project", "minor project", "final year project"]

/-- The immutable policy table (key list mirrors the Python dict literal). -/
def CONTENT_SHAPE_POLICY : List ((CourseCategory × CourseType) × ContentShape) :=
  [ ((.FCM, .TC),   .ACADEMIC_THEORY),
    ((.FCM, .PC),   .ACADEMIC_INTEGRATED),
    ((.FCM, .IC_T), .ACADEMIC_INTEGRATED),
    ((.FCM, .IC_P), .ACADEMIC_INTEGRATED),
    ((.FCE, .TC),   .ACADEMIC_THEORY),
    ((.FCE, .PC),   .ACADEMIC_INTEGRATED),
    ((.FCE, .IC_T), .ACADEMIC_INTEGRATED),
    ((.FCE, .IC_P), .ACADEMIC_INTEGRATED),
    ((.PCM, .TC),   .ACADEMIC_THEORY),
    ((.PCM, .PC),   .ACADEMIC_INTEGRATED),
    ((.PCM, .IC_T), .ACADEMIC_INTEGRATED),
    ((.PCM, .IC_P), .ACADEMIC_INTEGRATED),
    ((.PCE, .TC),   .ACADEMIC_THEORY),
    ((.PCE, .PC),   .ACADEMIC_INTEGRATED),
    ((.PCE, .IC_T), .ACADEMIC_INTEGRATED),
    ((.PCE, .IC_P), .ACADEMIC_INTEGRATED),
    ((.SEE, .SC),   .SKILL_PRACTICE),
    ((.MDE, .TC),   .ACADEMIC_THEORY),
    ((.MDE, .PC),   .ACADEMIC_INTEGRATED),
    ((.MDE, .IC_T), .ACADEMIC_INTEGRATED),
    ((.MDE, .IC_P), .ACADEMIC_INTEGRATED) ]

/-- Categories that must never appear as policy-table keys. -/
def FORBIDDEN_POLICY_CATEGORIES : List CourseCategory := [.MDM, .SEM]

/-- The module-initialization guard assertion of `infer_content_shape.py`:
`not any(cat in FORBIDDEN_POLICY_CATEGORIES for (cat, _) in CONTENT_SHAPE_POLICY.keys())`.
The Python module raises `AssertionError` at import time exactly when this
Boolean is `false`. -/
def policyGuard : Bool :=
  !(CONTENT_SHAPE_POLICY.any (fun e => FORBIDDEN_POLICY_CATEGORIES.contains e.1.1))

/-- An override rule: name, predicate over (category, type, title), shape. -/
structure OverrideRule where
  name : String
  predicate : CourseCategory → CourseType → String → Bool
  shape : ContentShape

/-- The ordered override-rule list. -/
def OVERRIDE_RULES : List OverrideRule :=
  [ ⟨"Capstone Project (PCM)",
     fun cat ctype title =>
       cat == .PCM && ctype == .PC &&
       CAPSTONE_KEYWORDS.any (fun k => pyContains (pyLower title) k),
     .PROJECT⟩,
    ⟨"EXSEL (MDM)",
     fun cat _ _ => cat == .MDM,
     .PROJECT⟩,
    ⟨"SEM Internship",
     fun cat ctype _ => cat == .SEM && ctype == .PC,
     .PROJECT⟩ ]

/-- Inference input record. -/
structure InferenceInput where
  course_code : String
  course_title : String
  category : CourseCategory
  course_type : CourseType

/-- Inference result record. -/
structure InferenceResult where
  course_code : String
  inferred_shape : ContentShape
  rule_source : String
  policy_version : String
  trace : List String
deriving DecidableEq

/-- The fatal inference errors, carrying the data their Python messages
interpolate.  The `isinstance` guards of the Python function are statically
satisfied by the closed enumerations and need no error constructor. -/
inductive InferenceError
  | multipleOverrides (course_code : String) (ruleNames : List String)
  | noPolicyMapping (course_code : String) (category : CourseCategory) (ctype : CourseType)
deriving DecidableEq

/-- The inference engine over an explicit rule list (the Python body of
`infer_content_shape`, with the module-level `OVERRIDE_RULES` abstracted
as a parameter). -/
def inferWithRules (rules : List OverrideRule) (inp : InferenceInput) :
    Except InferenceError InferenceResult :=
  let matched := rules.filter
    (fun r => r.predicate inp.category inp.course_type inp.course_title)
  let trace := matched.map (fun r => "override matched: " ++ r.name)
  if matched.length > 1 then
    .error (.multipleOverrides inp.course_code (matched.map (·.name)))
  else
    match matched with
    | [r] =>
      .ok ⟨inp.course_code, r.shape, "override:" ++ r.name, POLICY_VERSION,
           trace ++ ["content shape set by override → " ++ r.shape.value]⟩
    | _ =>
      let trace2 := trace ++
        ["policy lookup: (" ++ inp.category.value ++ ", " ++ inp.course_type.value ++ ")"]
      match CONTENT_SHAPE_POLICY.lookup (inp.category, inp.course_type) with
      | none => .error (.noPolicyMapping inp.course_code inp.category inp.course_type)
      | some shape =>
        .ok ⟨inp.course_code, shape, "policy", POLICY_VERSION,
             trace2 ++ ["content shape set by policy → " ++ shape.value]⟩

/-- `infer_content_shape` of `infer_content_shape.py`. -/
def infer_content_shape (inp : InferenceInput) : Except InferenceError InferenceResult :=
  inferWithRules OVERRIDE_RULES inp

end InferContentShape

/- ===================== validate_structure.py : structural validation ===================== -/

namespace ValidateStructure

/-- Content-shape enumeration as re-declared in `validate_structure.py`. -/
inductive ContentShape
  | ACADEMIC_THEORY | ACADEMIC_INTEGRATED | SKILL_PRACTICE | PROJECT
deriving DecidableEq

/-- Section record of `validate_structure.py` (title and body only). -/
structure MarkdownSection where
  title : String
  body : String
deriving DecidableEq

/-- Validation error carrying the three arguments of the Python
`ValidationError` constructor. -/
structure ValidationError where
  courseCode : String
  invariantId : String
  message : String
deriving DecidableEq

/-- Unit record extracted from sections. -/
structure UnitBlock where
  number : Nat
  title : String
  topics : List String
  experiments : List String
  theory_hours : Option Nat
  lab_hours : Option Nat
  x_hours : Option Nat
deriving DecidableEq

/-- Derived total: absent hour fields count as zero. -/
def UnitBlock.total_hours (u : UnitBlock) : Nat :=
  u.theory_hours.getD 0 + u.lab_hours.getD 0 + u.x_hours.getD 0

/-- Python truthiness of an `Optional[int]`: present and non-zero. -/
def optTruthy : Option Nat → Bool
  | some n => n != 0
  | none => false

/- ---- regex embeddings ----

`THEORY_HOURS_RE`, `LAB_HOURS_RE`, `X_HOURS_RE` and `TOTAL_HOURS_RE` all have
the shape `(kw1\s*hours?|kw2\s*hours?)\s*[:\-]?\s*(\d+)` with `re.I`; for
these patterns a greedy left-to-right scan is equivalent to Python's
backtracking search, because the optional pieces (`s?`, `[:\-]?`) and the
greedy `\s*` runs can never consume a character that a later piece of the
pattern could match. -/

/-- Match `\s*[:\-]?\s*(\d+)` at the head of the list, returning the value. -/
def hourTail (cs : List Char) : Option Nat :=
  let r1 := cs.dropWhile isPySpace
  let r2 := match r1 with
            | c :: t => if c = ':' || c = '-' then t else r1
            | [] => r1
  let r3 := r2.dropWhile isPySpace
  let ds := r3.takeWhile Char.isDigit
  if ds.isEmpty then none else some (digitsToNat ds)

/-- Match `kw\s*hours?` then the digit tail at the head of the list. -/
def kwHourAt (kw : List Char) (cs : List Char) : Option Nat :=
  match stripCI kw cs with
  | none => none
  | some r1 =>
    let r2 := r1.dropWhile isPySpace
    match stripCI "hour".data r2 with
    | none => none
    | some r3 =>
      let r4 := match r3 with
                | c :: t => if c.toLower = 's' then t else r3
                | [] => r3
      hourTail r4

/-- Python `re.search` of an hour pattern: leftmost position at which any
keyword alternative matches. -/
def searchHours (kws : List (List Char)) : List Char → Option Nat
  | [] => kws.findSome? (fun kw => kwHourAt kw [])
  | c :: t =>
    match kws.findSome? (fun kw => kwHourAt kw (c :: t)) with
    | some n => some n
    | none => searchHours kws t

/-- Keyword alternatives of `THEORY_HOURS_RE`. -/
def theoryKws : List (List Char) := ["theory".data, "lecture".data]

/-- Keyword alternatives of `LAB_HOURS_RE`. -/
def labKws : List (List Char) := ["lab".data, "practical".data]

/-- Keyword alternatives of `X_HOURS_RE`. -/
def xKws : List (List Char) := ["x".data, "activity".data]

/-- Keyword alternatives of `TOTAL_HOURS_RE`. -/
def totalKws : List (List Char) := ["total".data]

/-- Match the tail of `UNIT_HEADER_RE` at a position:
`unit\s*[-:]?\s*([1-9]\d*)\s*[-:EN DASH]?\s*(.*)?` (case-insensitive, the
title group stopping at a newline as `.` does). -/
def unitHeaderAt (cs : List Char) : Option (Nat × String) :=
  match stripCI "unit".data cs with
  | none => none
  | some r1 =>
    let r2 := r1.dropWhile isPySpace
    let r3 := match r2 with
              | c :: t => if c = ':' || c = '-' then t else r2
              | [] => r2
    let r4 := r3.dropWhile isPySpace
    match r4 with
    | c :: _ =>
      if c.isDigit && c != '0' then
        let ds := r4.takeWhile Char.isDigit
        let r5 := (r4.drop ds.length).dropWhile isPySpace
        let r6 := match r5 with
                  | d :: t => if d = ':' || d = '-' || d = Char.ofNat 8211 then t else r5
                  | [] => r5
        let r7 := r6.dropWhile isPySpace
        some (digitsToNat ds, String.mk (r7.takeWhile (· ≠ '\n')))
      else none
    | [] => none

/-- Scan for `UNIT_HEADER_RE` honouring the `\b` before `unit`:
`prev` is the character before the current position. -/
def searchUnitHeaderAux (prev : Option Char) : List Char → Option (Nat × String)
  | [] =>
    if (match prev with | none => true | some c => !isWordChar c) then unitHeaderAt []
    else none
  | c :: t =>
    match (if (match prev with | none => true | some p => !isWordChar p)
           then unitHeaderAt (c :: t) else none) with
    | some r => some r
    | none => searchUnitHeaderAux (some c) t

/-- Python `UNIT_HEADER_RE.search(title)`, returning unit number and raw title. -/
def searchUnitHeader (title : String) : Option (Nat × String) :=
  searchUnitHeaderAux none title.data

/-- Match `(experiment|lab)\b` at a position (the leading `\b` is checked by
the scanner). -/
def expWordAt (cs : List Char) : Bool :=
  (match stripCI "experiment".data cs with
   | some r => match r with | [] => true | c :: _ => !isWordChar c
   | none => false) ||
  (match stripCI "lab".data cs with
   | some r => match r with | [] => true | c :: _ => !isWordChar c
   | none => false)

/-- Scan for `\b(experiment|lab)\b` (case-insensitive). -/
def hasExpWordAux (prev : Option Char) : List Char → Bool
  | [] => false
  | c :: t =>
    ((match prev with | none => true | some p => !isWordChar p) && expWordAt (c :: t)) ||
    hasExpWordAux (some c) t

/-- Python `re.search(r"\b(experiment|lab)\b", s, re.I)` as a Boolean. -/
def hasExpWord (cs : List Char) : Bool :=
  hasExpWordAux none cs

/- ---- normalize_unit_title ---- -/

/-- Python `t.replace("&", "and")`. -/
def pyReplaceAmp (cs : List Char) : List Char :=
  cs.flatMap (fun c => if c = '&' then "and".data else [c])

/-- Match `\s+` (one or more whitespace) at the head, returning the rest. -/
def wsPlus (cs : List Char) : Option (List Char) :=
  match cs with
  | c :: t => if isPySpace c then some (t.dropWhile isPySpace) else none
  | [] => none

/-- The anchored rewrite `^introduction\s+(to|of)\s+(.+)$` → `Basics of \2`
(case-insensitive, `.` not crossing a newline); identity when it fails. -/
def introRewrite (cs : List Char) : List Char :=
  let attempt : Option (List Char) :=
    (stripCI "introduction".data cs).bind fun r1 =>
    (wsPlus r1).bind fun r2 =>
    (match stripCI "to".data r2 with
     | some r3 => some r3
     | none => stripCI "of".data r2).bind fun r3 =>
    (wsPlus r3).bind fun rest =>
    if rest ≠ [] ∧ ¬ rest.contains '\n' then some rest else none
  match attempt with
  | some rest => "Basics of ".data ++ rest
  | none => cs

/-- Python `str.title()` (ASCII): uppercase a letter after a non-letter,
lowercase a letter after a letter. -/
def pyTitleAux : Bool → List Char → List Char
  | _, [] => []
  | prevAlpha, c :: t =>
    if c.isAlpha then
      (if prevAlpha then c.toLower else c.toUpper) :: pyTitleAux true t
    else
      c :: pyTitleAux false t

/-- `normalize_unit_title` of `validate_structure.py`. -/
def normalize_unit_title (raw : String) : String :=
  if raw = "" then ""
  else
    String.mk (pyTitleAux false (introRewrite (pyReplaceAmp (pyStripChars raw.data))))

/- ---- extract_units ---- -/

/-- Process one body line into the current unit: blank lines are skipped,
bullets become topics, hour declarations set the optional hour fields
(later declarations overwrite), whole-word experiment/lab mentions become
experiment entries. -/
def processLine (u : UnitBlock) (line : String) : UnitBlock :=
  let s := pyStripChars line.data
  if s.isEmpty then u
  else if (match s with | c :: _ => c = '-' || c = '*' | [] => false) then
    { u with topics := u.topics ++
        [String.mk (pyStripChars (s.dropWhile (fun c => c = '-' || c = '*' || c = ' ')))] }
  else
    match searchHours theoryKws s with
    | some n => { u with theory_hours := some n }
    | none =>
      match searchHours labKws s with
      | some n => { u with lab_hours := some n }
      | none =>
        match searchHours xKws s with
        | some n => { u with x_hours := some n }
        | none =>
          if hasExpWord s then { u with experiments := u.experiments ++ [String.mk s] }
          else u

/-- The fresh unit created from a matched unit heading. -/
def newUnit (num : Nat) (rawTitle : String) : UnitBlock :=
  ⟨num, normalize_unit_title (pyStrip rawTitle), [], [], none, none, none⟩

/-- The section loop of `extract_units`: a unit-heading section starts a new
unit (its own body is skipped by the `continue`); other sections feed their
body lines to the current unit, if any. -/
def extractUnitsGo : Option UnitBlock → List MarkdownSection → List UnitBlock
  | cur, [] =>
    (match cur with | some u => [u] | none => [])
  | cur, sec :: rest =>
    match searchUnitHeader sec.title with
    | some (num, rawTitle) =>
      (match cur with
       | some u => u :: extractUnitsGo (some (newUnit num rawTitle)) rest
       | none => extractUnitsGo (some (newUnit num rawTitle)) rest)
    | none =>
      match cur with
      | none => extractUnitsGo none rest
      | some u =>
        extractUnitsGo (some ((pySplitlines sec.body).foldl processLine u)) rest

/-- `extract_units` of `validate_structure.py`. -/
def extract_units (sections : List MarkdownSection) : List UnitBlock :=
  extractUnitsGo none sections

/-- `extract_project_block`: the sections whose title contains `project`. -/
def extract_project_block (sections : List MarkdownSection) : List MarkdownSection :=
  sections.filter (fun s => pyContains (pyLower s.title) "project")

/-- `extract_project_total_hours`: first line whose stripped form matches
`TOTAL_HOURS_RE`. -/
def extract_project_total_hours (sec : MarkdownSection) : Option Nat :=
  (pySplitlines sec.body).findSome? (fun line => searchHours totalKws (pyStripChars line.data))

/- ---- validators ---- -/

/-- Number-distinctness helper (`len(set(numbers))`): distinct elements. -/
def eraseDupsAux (seen : List Nat) : List Nat → List Nat
  | [] => []
  | n :: t => if seen.contains n then eraseDupsAux seen t
              else n :: eraseDupsAux (n :: seen) t

/-- Ascending insertion used by `pySorted`. -/
def insertSorted (n : Nat) : List Nat → List Nat
  | [] => [n]
  | m :: t => if n ≤ m then n :: m :: t else m :: insertSorted n t

/-- Python `sorted` on a list of naturals. -/
def pySorted (l : List Nat) : List Nat :=
  l.foldr insertSorted []

/-- `_check_unit_sequence`: duplicate unit numbers, then ordering. -/
def checkUnitSequence (course_code : String) (units : List UnitBlock)
    (invariantTag : String) : Except ValidationError Unit :=
  let numbers := units.map (·.number)
  if (eraseDupsAux [] numbers).length ≠ numbers.length then
    .error ⟨course_code, invariantTag ++ "-UNIT-DUPLICATE", "Duplicate unit numbers detected"⟩
  else if numbers ≠ pySorted numbers then
    .error ⟨course_code, invariantTag ++ "-UNIT-ORDER",
            "Units must be in increasing numerical order"⟩
  else .ok ()

/-- The `f"Unit {u.number}" + (f" ({u.title})" if u.title else "")` label. -/
def unitLabel (u : UnitBlock) : String :=
  "Unit " ++ toString u.number ++ (if u.title ≠ "" then " (" ++ u.title ++ ")" else "")

/-- Per-unit loop of `validate_academic_theory`, accumulating total hours. -/
def atUnitsLoop (course_code : String) : List UnitBlock → Nat → Except ValidationError Nat
  | [], total => .ok total
  | u :: rest, total =>
    if u.experiments ≠ [] then
      .error ⟨course_code, "AT-EXPERIMENT-FORBIDDEN",
              unitLabel u ++ ": experiments are not allowed in Academic-Theory courses"⟩
    else if optTruthy u.lab_hours || optTruthy u.x_hours then
      .error ⟨course_code, "AT-NON-THEORY-HOURS-FORBIDDEN",
              unitLabel u ++ ": lab/x hours are not allowed in Academic-Theory courses"⟩
    else if ¬ (4 ≤ u.topics.length ∧ u.topics.length ≤ 8) then
      .error ⟨course_code, "AT-TOPIC-CARDINALITY",
              unitLabel u ++ ": topics must be between 4 and 8 (found " ++
              toString u.topics.length ++ ")"⟩
    else if u.theory_hours.isNone then
      .error ⟨course_code, "AT-THEORY-HOUR-MISSING", unitLabel u ++ ": theory hours not declared"⟩
    else if u.theory_hours == some 0 then
      .error ⟨course_code, "AT-THEORY-HOUR-ZERO", unitLabel u ++ ": theory hours cannot be zero"⟩
    else atUnitsLoop course_code rest (total + u.total_hours)

/-- `validate_academic_theory`. -/
def validate_academic_theory (course_code : String) (sections : List MarkdownSection)
    (ltpxtotal_hours : Int) : Except ValidationError Unit :=
  let units := extract_units sections
  if units.length ≠ 5 then
    .error ⟨course_code, "AT-UNIT-COUNT",
            "Expected exactly 5 units, found " ++ toString units.length⟩
  else
    match checkUnitSequence course_code units "AT" with
    | .error e => .error e
    | .ok _ =>
      match atUnitsLoop course_code units 0 with
      | .error e => .error e
      | .ok total =>
        if (total : Int) ≠ ltpxtotal_hours then
          .error ⟨course_code, "AT-HOUR-MISMATCH",
                  "Declared hours " ++ toString total ++ " ≠ expected " ++
                  toString ltpxtotal_hours⟩
        else .ok ()

/-- Per-unit loop of `validate_academic_integrated`. -/
def aiUnitsLoop (course_code : String) : List UnitBlock → Nat → Except ValidationError Nat
  | [], total => .ok total
  | u :: rest, total =>
    if u.experiments = [] then
      .error ⟨course_code, "AI-EXPERIMENT-MISSING",
              unitLabel u ++ ": at least one experiment required"⟩
    else if ¬ (1 ≤ u.experiments.length ∧ u.experiments.length ≤ 4) then
      .error ⟨course_code, "AI-EXPERIMENT-COUNT", unitLabel u ++ ": experiments must be 1–4"⟩
    else if u.topics ≠ [] ∧ ¬ (4 ≤ u.topics.length ∧ u.topics.length ≤ 8) then
      .error ⟨course_code, "AI-TOPIC-CARDINALITY",
              unitLabel u ++ ": topics must be 4–8 if present"⟩
    else if u.theory_hours = none ∧ u.lab_hours = none ∧ u.x_hours = none then
      .error ⟨course_code, "AI-HOUR-BLOCK-MISSING",
              unitLabel u ++ ": no theory/lab/x hours declared"⟩
    else if u.theory_hours == some 0 then
      .error ⟨course_code, "AI-THEORY-HOUR-ZERO", unitLabel u ++ ": theory hours cannot be zero"⟩
    else if u.lab_hours == some 0 then
      .error ⟨course_code, "AI-LAB-HOUR-ZERO", unitLabel u ++ ": lab hours cannot be zero"⟩
    else if u.x_hours == some 0 then
      .error ⟨course_code, "AI-X-HOUR-ZERO", unitLabel u ++ ": x hours cannot be zero"⟩
    else aiUnitsLoop course_code rest (total + u.total_hours)

/-- `validate_academic_integrated`. -/
def validate_academic_integrated (course_code : String) (sections : List MarkdownSection)
    (ltpxtotal_hours : Int) : Except ValidationError Unit :=
  let units := extract_units sections
  if units.length ≠ 5 then
    .error ⟨course_code, "AI-UNIT-COUNT",
            "Expected exactly 5 units, found " ++ toString units.length⟩
  else
    match checkUnitSequence course_code units "AI" with
    | .error e => .error e
    | .ok _ =>
      match aiUnitsLoop course_code units 0 with
      | .error e => .error e
      | .ok total =>
        if (total : Int) ≠ ltpxtotal_hours then
          .error ⟨course_code, "AI-HOUR-MISMATCH",
                  "Declared hours " ++ toString total ++ " ≠ expected " ++
                  toString ltpxtotal_hours⟩
        else .ok ()

/-- Per-unit loop of `validate_skill_practice`, carrying total hours and the
`has_activity` flag. -/
def spUnitsLoop (course_code : String) :
    List UnitBlock → Nat → Bool → Except ValidationError (Nat × Bool)
  | [], total, hasAct => .ok (total, hasAct)
  | u :: rest, total, hasAct =>
    if optTruthy u.theory_hours then
      .error ⟨course_code, "SP-THEORY-FORBIDDEN",
              "Theory hours not allowed in Skill-Practice courses"⟩
    else
      let hasAct2 := hasAct || (u.experiments ≠ [] : Bool) ||
                     optTruthy u.lab_hours || optTruthy u.x_hours
      if u.lab_hours = none ∧ u.x_hours = none then
        .error ⟨course_code, "SP-PRACTICE-HOUR-MISSING",
                "Practice hours (lab/x) must be declared for all modules"⟩
      else if u.lab_hours == some 0 then
        .error ⟨course_code, "SP-LAB-HOUR-ZERO", "Lab hours cannot be zero"⟩
      else if u.x_hours == some 0 then
        .error ⟨course_code, "SP-X-HOUR-ZERO", "X hours cannot be zero"⟩
      else spUnitsLoop course_code rest (total + u.total_hours) hasAct2

/-- `validate_skill_practice`. -/
def validate_skill_practice (course_code : String) (sections : List MarkdownSection)
    (ltpxtotal_hours : Int) : Except ValidationError Unit :=
  let units := extract_units sections
  match (if units ≠ [] then checkUnitSequence course_code units "SP" else .ok ()) with
  | .error e => .error e
  | .ok _ =>
    match spUnitsLoop course_code units 0 false with
    | .error e => .error e
    | .ok (total, hasAct) =>
      if !hasAct then
        .error ⟨course_code, "SP-ACTIVITY-MISSING",
                "At least one activity/experiment (lab/x) is mandatory"⟩
      else if (total : Int) ≠ ltpxtotal_hours then
        .error ⟨course_code, "SP-HOUR-MISMATCH",
                "Declared hours " ++ toString total ++ " ≠ expected " ++
                toString ltpxtotal_hours⟩
      else .ok ()

/-- `validate_project`. -/
def validate_project (course_code : String) (sections : List MarkdownSection)
    (ltpxtotal_hours : Int) : Except ValidationError Unit :=
  let units := extract_units sections
  if units ≠ [] then
    .error ⟨course_code, "PR-UNIT-FORBIDDEN", "Units are not allowed in Project courses"⟩
  else
    let blocks := extract_project_block sections
    match blocks with
    | [b] =>
      (match extract_project_total_hours b with
       | none => .error ⟨course_code, "PR-HOUR-MISSING", "Project total hours not declared"⟩
       | some hours =>
         if hours = 0 then
           .error ⟨course_code, "PR-HOUR-ZERO", "Project total hours cannot be zero"⟩
         else if (hours : Int) ≠ ltpxtotal_hours then
           .error ⟨course_code, "PR-HOUR-MISMATCH",
                   "Declared hours " ++ toString hours ++ " ≠ expected " ++
                   toString ltpxtotal_hours⟩
         else .ok ())
    | _ =>
      .error ⟨course_code, "PR-DESCRIPTION-COUNT",
              "Expected exactly 1 project description block, found " ++
              toString blocks.length⟩

/-- `validate_course`: shape dispatch (the Python `else` branch is
unreachable over the closed enumeration). -/
def validate_course (course_code : String) (inferred_shape : ContentShape)
    (sections : List MarkdownSection) (ltpxtotal_hours : Int) :
    Except ValidationError Unit :=
  match inferred_shape with
  | .ACADEMIC_THEORY => validate_academic_theory course_code sections ltpxtotal_hours
  | .ACADEMIC_INTEGRATED => validate_academic_integrated course_code sections ltpxtotal_hours
  | .SKILL_PRACTICE => validate_skill_practice course_code sections ltpxtotal_hours
  | .PROJECT => validate_project course_code sections ltpxtotal_hours

end ValidateStructure

/- ===================== validate_content_blocks.py : grammar validation ===================== -/

namespace ValidateContentBlocks

open ValidateStructure

/-- Topic loop of `validate_topic_grammar` for one unit (`idx` is the
1-based topic index). -/
def topicLoop (course_code : String) (num : Nat) : Nat → List String → Except ValidationError Unit
  | _, [] => .ok ()
  | idx, t :: rest =>
    if ¬ pyContains t ":" then
      .error ⟨course_code, "TG-COLON-MISSING",
              "Unit " ++ toString num ++ ": Topic " ++ toString idx ++
              " must contain \x27:\x27 separating title and sub-topics"⟩
    else topicLoop course_code num (idx + 1) rest

/-- `validate_topic_grammar`. -/
def validate_topic_grammar (course_code : String) :
    List UnitBlock → Except ValidationError Unit
  | [] => .ok ()
  | u :: rest =>
    match topicLoop course_code u.number 1 u.topics with
    | .error e => .error e
    | .ok _ => validate_topic_grammar course_code rest

/-- Experiment loop of `validate_experiment_blocks` for one unit. -/
def expItems (course_code : String) (num : Nat) : Nat → List String → Except ValidationError Unit
  | _, [] => .ok ()
  | idx, e :: rest =>
    if pyStrip e = "" then
      .error ⟨course_code, "EXP-TITLE-MISSING",
              "Unit " ++ toString num ++ ": Experiment " ++ toString idx ++ " title missing"⟩
    else expItems course_code num (idx + 1) rest

/-- `validate_experiment_blocks`. -/
def validate_experiment_blocks (course_code : String) :
    List UnitBlock → Except ValidationError Unit
  | [] => .ok ()
  | u :: rest =>
    match expItems course_code u.number 1 u.experiments with
    | .error e => .error e
    | .ok _ => validate_experiment_blocks course_code rest

/-- `validate_x_activity_blocks`. -/
def validate_x_activity_blocks (course_code : String) :
    List UnitBlock → Except ValidationError Unit
  | [] => .ok ()
  | u :: rest =>
    if optTruthy u.x_hours ∧ u.experiments = [] then
      .error ⟨course_code, "XG-ACTIVITY-MISSING",
              "Unit " ++ toString u.number ++
              ": X-activity hours declared but no activity description provided"⟩
    else validate_x_activity_blocks course_code rest

/-- `validate_content_blocks`: dispatch the three grammar validators. -/
def validate_content_blocks (course_code : String) (sections : List MarkdownSection)
    (units : List UnitBlock) : Except ValidationError Unit :=
  match validate_topic_grammar course_code units with
  | .error e => .error e
  | .ok _ =>
    match validate_experiment_blocks course_code units with
    | .error e => .error e
    | .ok _ => validate_x_activity_blocks course_code units

end ValidateContentBlocks

/- ===================== proof-side helper definitions ===================== -/

namespace ValidateStructure

/-- Derived per-line classifier: the theory-hour value a body line assigns,
mirroring the branch order of `processLine` (blank and bullet lines assign
nothing). -/
def lineTheoryVal (line : String) : Option Nat :=
  let s := pyStripChars line.data
  if s.isEmpty then none
  else if (match s with | c :: _ => c = '-' || c = '*' | [] => false) then none
  else searchHours theoryKws s

/-- Derived per-line classifier for the lab-hour field (a line already
claimed by the theory pattern assigns nothing). -/
def lineLabVal (line : String) : Option Nat :=
  let s := pyStripChars line.data
  if s.isEmpty then none
  else if (match s with | c :: _ => c = '-' || c = '*' | [] => false) then none
  else
    match searchHours theoryKws s with
    | some _ => none
    | none => searchHours labKws s

/-- Derived per-line classifier for the x-hour field. -/
def lineXVal (line : String) : Option Nat :=
  let s := pyStripChars line.data
  if s.isEmpty then none
  else if (match s with | c :: _ => c = '-' || c = '*' | [] => false) then none
  else
    match searchHours theoryKws s with
    | some _ => none
    | none =>
      match searchHours labKws s with
      | some _ => none
      | none => searchHours xKws s

/-- Overwrite-if-declared update of an optional hour field. -/
def hourUpd (v : Option Nat) (cur : Option Nat) : Option Nat :=
  match v with
  | some n => some n
  | none => cur

/-- The accumulated body lines that `extract_units` feeds to a unit from a
run of non-heading sections. -/
def allLines (secs : List MarkdownSection) : List String :=
  (secs.map (fun s => pySplitlines s.body)).flatten

/-- A unit passing every per-unit check of the academic-theory loop. -/
def atUnitOk (u : UnitBlock) : Prop :=
  u.experiments = [] ∧ optTruthy u.lab_hours = false ∧ optTruthy u.x_hours = false ∧
  4 ≤ u.topics.length ∧ u.topics.length ≤ 8 ∧
  u.theory_hours.isSome ∧ u.theory_hours ≠ some 0

/-- A unit passing every per-unit check of the academic-integrated loop. -/
def aiUnitOk (u : UnitBlock) : Prop :=
  u.experiments ≠ [] ∧ u.experiments.length ≤ 4 ∧
  (u.topics = [] ∨ (4 ≤ u.topics.length ∧ u.topics.length ≤ 8)) ∧
  ¬ (u.theory_hours = none ∧ u.lab_hours = none ∧ u.x_hours = none) ∧
  u.theory_hours ≠ some 0 ∧ u.lab_hours ≠ some 0 ∧ u.x_hours ≠ some 0

end ValidateStructure

/- ===================== concrete inputs used by witnesses / counterexamples ===================== -/

namespace ValidateStructure

/-- A unit-heading section followed by one content section. -/
def mkU (n : Nat) (body : String) : List MarkdownSection :=
  [⟨"Unit " ++ toString n, ""⟩, ⟨"part", body⟩]

/-- Theory course whose first unit explicitly declares `Lab Hours: 0`. -/
def c4secs : List MarkdownSection :=
  mkU 1 "Lab Hours: 0\nTheory Hours: 15\n- a: 1\n- b: 1\n- c: 1\n- d: 1" ++
  mkU 2 "Theory Hours: 15\n- a: 1\n- b: 1\n- c: 1\n- d: 1" ++
  mkU 3 "Theory Hours: 15\n- a: 1\n- b: 1\n- c: 1\n- d: 1" ++
  mkU 4 "Theory Hours: 15\n- a: 1\n- b: 1\n- c: 1\n- d: 1" ++
  mkU 5 "Theory Hours: 15\n- a: 1\n- b: 1\n- c: 1\n- d: 1"

/-- Theory course whose first unit records an experiment line. -/
def c4wsecs : List MarkdownSection :=
  mkU 1 "Theory Hours: 15\nDo one experiment now\n- a: 1\n- b: 1\n- c: 1\n- d: 1" ++
  mkU 2 "Theory Hours: 15\n- a: 1\n- b: 1\n- c: 1\n- d: 1" ++
  mkU 3 "Theory Hours: 15\n- a: 1\n- b: 1\n- c: 1\n- d: 1" ++
  mkU 4 "Theory Hours: 15\n- a: 1\n- b: 1\n- c: 1\n- d: 1" ++
  mkU 5 "Theory Hours: 15\n- a: 1\n- b: 1\n- c: 1\n- d: 1"

/-- The units of `c4wsecs` other than the first. -/
def c4wRest : List UnitBlock :=
  [⟨2, "", ["a: 1", "b: 1", "c: 1", "d: 1"], [], some 15, none, none⟩,
   ⟨3, "", ["a: 1", "b: 1", "c: 1", "d: 1"], [], some 15, none, none⟩,
   ⟨4, "", ["a: 1", "b: 1", "c: 1", "d: 1"], [], some 15, none, none⟩,
   ⟨5, "", ["a: 1", "b: 1", "c: 1", "d: 1"], [], some 15, none, none⟩]

/-- Integrated course whose first unit declares both hour fields zero. -/
def c5secs : List MarkdownSection :=
  mkU 1 "one experiment\nTheory Hours: 0\nLab Hours: 0" ++
  mkU 2 "one experiment\nLab Hours: 5" ++ mkU 3 "one experiment\nLab Hours: 5" ++
  mkU 4 "one experiment\nLab Hours: 5" ++ mkU 5 "one experiment\nLab Hours: 5"

/-- Integrated course whose first unit declares `Lab Hours: 0` with theory absent. -/
def c5wsecs : List MarkdownSection :=
  mkU 1 "One experiment here\nLab Hours: 0" ++
  mkU 2 "one experiment\nLab Hours: 5" ++ mkU 3 "one experiment\nLab Hours: 5" ++
  mkU 4 "one experiment\nLab Hours: 5" ++ mkU 5 "one experiment\nLab Hours: 5"

/-- The units of `c5wsecs` other than the first. -/
def c5wRest : List UnitBlock :=
  [⟨2, "", [], ["one experiment"], none, some 5, none⟩,
   ⟨3, "", [], ["one experiment"], none, some 5, none⟩,
   ⟨4, "", [], ["one experiment"], none, some 5, none⟩,
   ⟨5, "", [], ["one experiment"], none, some 5, none⟩]

/-- Two sections both titled with `project`, yielding no units. -/
def c6secs : List MarkdownSection :=
  [⟨"Project Overview", "stuff"⟩, ⟨"Mini Project", "Total Hours: 10"⟩]

/-- A single empty unit (no hours, no experiments, no topics). -/
def c7secs : List MarkdownSection := [⟨"Unit 1", ""⟩]

/-- Sections of the duplicate-hour-declaration witness. -/
def c10secs : List MarkdownSection :=
  [⟨"Unit 1", ""⟩,
   ⟨"part", "Theory Hours: 3\nLab Hours: 2\nTheory Hours: 7\nLab Hours: 6\nX Hours: 1\nX Hours: 4"⟩]

end ValidateStructure

/- ===================== claim theorems ===================== -/

namespace InferContentShape

/-- C1: for every course input whose (category, type) pair is a key of the
policy table and for which no override rule's predicate matches, the
inference engine returns the table's value for that pair with
`rule_source = "policy"`. -/
theorem c1_policy_lookup_path (inp : InferenceInput) (shape : ContentShape)
    (hpol : CONTENT_SHAPE_POLICY.lookup (inp.category, inp.course_type) = some shape)
    (hno : ∀ r ∈ OVERRIDE_RULES,
      r.predicate inp.category inp.course_type inp.course_title = false) :
    ∃ res, infer_content_shape inp = .ok res ∧
      res.inferred_shape = shape ∧ res.rule_source = "policy" := by
  have hm : OVERRIDE_RULES.filter
      (fun r => r.predicate inp.category inp.course_type inp.course_title) = [] := by
    rw [List.filter_eq_nil_iff]
    intro r hr
    simp [hno r hr]
  refine ⟨⟨inp.course_code, shape, "policy", POLICY_VERSION,
    ["policy lookup: (" ++ inp.category.value ++ ", " ++ inp.course_type.value ++ ")",
     "content shape set by policy → " ++ shape.value]⟩, ?_, rfl, rfl⟩
  simp only [infer_content_shape, inferWithRules, hm, hpol]
  rfl

/-- Witness for C1 at a concrete foundation theory course. -/
theorem c1_policy_lookup_path_witness :
    ∃ res, infer_content_shape ⟨"MAT101", "Calculus", .FCM, .TC⟩ = .ok res ∧
      res.inferred_shape = .ACADEMIC_THEORY ∧ res.rule_source = "policy" :=
  c1_policy_lookup_path ⟨"MAT101", "Calculus", .FCM, .TC⟩ .ACADEMIC_THEORY
    (by decide) (by decide)

/-- C2: whenever more than one override rule's predicate matches the
course's (category, type, title), the inference engine fails with an
`InferenceError` naming every matched rule (in rule order); it never
returns the shape of the first-listed matching rule.  (On the shipped
`OVERRIDE_RULES` the three predicates require pairwise distinct
categories, so the engine is proved over an arbitrary rule list.) -/
theorem c2_ambiguous_overrides_fatal (rules : List OverrideRule) (inp : InferenceInput)
    (h : 1 < (rules.filter
      (fun r => r.predicate inp.category inp.course_type inp.course_title)).length) :
    inferWithRules rules inp = .error (.multipleOverrides inp.course_code
      ((rules.filter
        (fun r => r.predicate inp.category inp.course_type inp.course_title)).map (·.name))) := by
  simp only [inferWithRules]
  rw [if_pos h]

/-- Witness for C2: two always-matching rules produce the ambiguity error
naming both. -/
theorem c2_ambiguous_overrides_fatal_witness :
    inferWithRules
      [⟨"A", fun _ _ _ => true, .PROJECT⟩, ⟨"B", fun _ _ _ => true, .SKILL_PRACTICE⟩]
      ⟨"X9", "Anything", .FCM, .TC⟩ =
    .error (.multipleOverrides "X9" ["A", "B"]) :=
  c2_ambiguous_overrides_fatal
    [⟨"A", fun _ _ _ => true, .PROJECT⟩, ⟨"B", fun _ _ _ => true, .SKILL_PRACTICE⟩]
    ⟨"X9", "Anything", .FCM, .TC⟩ (by decide)

/-- C3: the module-initialization guard holds — no key of the policy table
has its category in the override-only set {MDM, SEM}; the Python `assert`
(modelled by `policyGuard`) would abort construction exactly when this
Boolean is false. -/
theorem c3_policy_table_guard :
    policyGuard = true ∧
    ∀ e ∈ CONTENT_SHAPE_POLICY, e.1.1 ∉ FORBIDDEN_POLICY_CATEGORIES :=
  ⟨by decide, by decide⟩

end InferContentShape

namespace ValidateStructure

/-- C6: for a project course whose sections yield no units and contain
exactly two sections titled with the word `project`, validation fails with
the description-count invariant reporting count 2. -/
theorem c6_project_description_count (code : String) (sections : List MarkdownSection)
    (ltpx : Int)
    (hu : extract_units sections = [])
    (hb : (extract_project_block sections).length = 2) :
    validate_project code sections ltpx =
      .error ⟨code, "PR-DESCRIPTION-COUNT",
              "Expected exactly 1 project description block, found 2"⟩ := by
  obtain ⟨a, b, hab⟩ := List.length_eq_two.mp hb
  simp only [validate_project, hu, hab]
  rw [if_neg (by simp), show ([a, b] : List MarkdownSection).length = 2 from rfl]
  rfl

/-- Witness for C6 at two concrete project-titled sections. -/
theorem c6_project_description_count_witness :
    validate_project "C" c6secs 10 =
      .error ⟨"C", "PR-DESCRIPTION-COUNT",
              "Expected exactly 1 project description block, found 2"⟩ :=
  c6_project_description_count "C" c6secs 10 (by decide) (by decide)

/-- Helper for C7: a successful skill-practice loop returning the activity
flag `true` started with it `true` or visited a unit showing activity. -/
theorem spLoop_activity_source (code : String) :
    ∀ (units : List UnitBlock) (total : Nat) (hasAct : Bool) (res : Nat × Bool),
      spUnitsLoop code units total hasAct = .ok res → res.2 = true →
      hasAct = true ∨ ∃ u ∈ units,
        (u.experiments ≠ [] ∨ optTruthy u.lab_hours = true ∨ optTruthy u.x_hours = true)
  | [], total, hasAct, res, h, ha => by
    simp only [spUnitsLoop] at h
    cases h
    exact Or.inl ha
  | u :: rest, total, hasAct, res, h, ha => by
    simp only [spUnitsLoop] at h
    split at h
    · cases h
    · split at h
      · cases h
      · split at h
        · cases h
        · split at h
          · cases h
          · have ih := spLoop_activity_source code rest (total + u.total_hours) _ res h ha
            rcases ih with h2 | ⟨v, hv, hact⟩
            · simp only [Bool.or_eq_true] at h2
              rcases h2 with ((h3 | h3) | h3) | h3
              · exact Or.inl h3
              · exact Or.inr ⟨u, List.mem_cons_self u rest,
                  Or.inl (by simpa using h3)⟩
              · exact Or.inr ⟨u, List.mem_cons_self u rest, Or.inr (Or.inl h3)⟩
              · exact Or.inr ⟨u, List.mem_cons_self u rest, Or.inr (Or.inr h3)⟩
            · exact Or.inr ⟨v, List.mem_cons_of_mem u hv, hact⟩

end ValidateStructure

namespace ValidateStructure

/-- C7 (amended): skill-practice validation succeeds only if some unit
shows an experiment or nonzero lab/x hours, and for the empty extracted
unit list it fails with SP-ACTIVITY-MISSING for every expected total
(the activity check precedes the total-hours comparison).  For a nonempty
unit list with no activity an earlier per-unit invariant fires instead. -/
theorem c7_skill_activity_missing (code : String) (sections : List MarkdownSection)
    (ltpx : Int) :
    (extract_units sections = [] →
      validate_skill_practice code sections ltpx =
        .error ⟨code, "SP-ACTIVITY-MISSING",
                "At least one activity/experiment (lab/x) is mandatory"⟩) ∧
    (validate_skill_practice code sections ltpx = .ok () →
      ∃ u ∈ extract_units sections,
        (u.experiments ≠ [] ∨ optTruthy u.lab_hours = true ∨ optTruthy u.x_hours = true)) := by
  constructor
  · intro hu
    simp only [validate_skill_practice, hu]
    rfl
  · intro hok
    simp only [validate_skill_practice] at hok
    split at hok
    · cases hok
    · split at hok
      · cases hok
      · rename_i heq total hasAct hsp
        split at hok
        · cases hok
        · rename_i hact
          have h2 : hasAct = true := by
            cases h3 : hasAct
            · rw [h3] at hact; simp at hact
            · rfl
          have := spLoop_activity_source code (extract_units sections) 0 false (total, hasAct)
            hsp h2
          rcases this with h3 | h3
          · cases h3
          · exact h3

/-- Witness for C7: the empty section list yields no units and fails with
SP-ACTIVITY-MISSING. -/
theorem c7_skill_activity_missing_witness :
    validate_skill_practice "C" ([] : List MarkdownSection) 5 =
      .error ⟨"C", "SP-ACTIVITY-MISSING",
              "At least one activity/experiment (lab/x) is mandatory"⟩ :=
  (c7_skill_activity_missing "C" [] 5).1 rfl

/-- Counterexample for C7 as stated: a nonempty unit list in which no unit
shows any activity fails with SP-PRACTICE-HOUR-MISSING, not with
SP-ACTIVITY-MISSING. -/
theorem c7_counterexample :
    extract_units c7secs = [⟨1, "", [], [], none, none, none⟩] ∧
    validate_skill_practice "C" c7secs 10 =
      .error ⟨"C", "SP-PRACTICE-HOUR-MISSING",
              "Practice hours (lab/x) must be declared for all modules"⟩ := by
  constructor
  · rfl
  · rfl

end ValidateStructure

namespace ValidateContentBlocks

open ValidateStructure

/-- Helper for C9: the topic loop succeeds iff every topic contains a colon. -/
theorem topicLoop_ok_iff (code : String) (num : Nat) :
    ∀ (ts : List String) (idx : Nat),
      (topicLoop code num idx ts = .ok () ↔ ∀ t ∈ ts, pyContains t ":" = true)
  | [], idx => by simp [topicLoop]
  | t :: rest, idx => by
    simp only [topicLoop]
    split
    · rename_i hc
      constructor
      · intro h; cases h
      · intro h
        exact absurd (h t (List.mem_cons_self t rest)) hc
    · rename_i hc
      rw [topicLoop_ok_iff code num rest (idx + 1)]
      constructor
      · intro h s hs
        rcases List.mem_cons.mp hs with h2 | h2
        · subst h2
          exact Bool.of_not_eq_false (by simpa using hc)
        · exact h s h2
      · intro h s hs
        exact h s (List.mem_cons_of_mem t hs)

/-- Helper for C9: any topic-loop failure carries the colon invariant id. -/
theorem topicLoop_error_id (code : String) (num : Nat) :
    ∀ (ts : List String) (idx : Nat) (e : ValidationError),
      topicLoop code num idx ts = .error e → e.invariantId = "TG-COLON-MISSING"
  | [], idx, e => by simp [topicLoop]
  | t :: rest, idx, e => by
    simp only [topicLoop]
    split
    · intro h
      cases h
      rfl
    · exact topicLoop_error_id code num rest (idx + 1) e

/-- Helper for C9: the topic-grammar validator succeeds iff every topic of
every unit contains a colon. -/
theorem vtg_ok_iff (code : String) :
    ∀ (units : List UnitBlock),
      (validate_topic_grammar code units = .ok () ↔
        ∀ u ∈ units, ∀ t ∈ u.topics, pyContains t ":" = true)
  | [] => by simp [validate_topic_grammar]
  | u :: rest => by
    simp only [validate_topic_grammar]
    split
    · rename_i e he
      constructor
      · intro h; cases h
      · intro h
        have := (topicLoop_ok_iff code u.number u.topics 1).mpr
          (h u (List.mem_cons_self u rest))
        rw [this] at he
        cases he
    · rename_i x he
      rw [vtg_ok_iff code rest]
      have hu : ∀ t ∈ u.topics, pyContains t ":" = true := by
        have : topicLoop code u.number 1 u.topics = .ok () := by
          cases x; exact he
        exact (topicLoop_ok_iff code u.number u.topics 1).mp this
      constructor
      · intro h s hs
        rcases List.mem_cons.mp hs with h2 | h2
        · subst h2; exact hu
        · exact h s h2
      · intro h s hs
        exact h s (List.mem_cons_of_mem u hs)

/-- Helper for C9: any topic-grammar failure carries the colon invariant id. -/
theorem vtg_error_id (code : String) :
    ∀ (units : List UnitBlock) (e : ValidationError),
      validate_topic_grammar code units = .error e → e.invariantId = "TG-COLON-MISSING"
  | [], e => by simp [validate_topic_grammar]
  | u :: rest, e => by
    intro h
    simp only [validate_topic_grammar] at h
    split at h
    · rename_i f hf
      cases h
      exact topicLoop_error_id code u.number u.topics 1 _ hf
    · exact vtg_error_id code rest e h

/-- C9 (amended): the content-block topic grammar enforces only the
colon-presence condition — it succeeds exactly when every topic of every
unit contains a `:` separator (TG-COLON-MISSING otherwise); a topic ending
in a bare separator with an empty sub-item list is accepted. -/
theorem c9_topic_grammar (code : String) (units : List UnitBlock) :
    (validate_topic_grammar code units = .ok () ↔
      ∀ u ∈ units, ∀ t ∈ u.topics, pyContains t ":" = true) ∧
    ((¬ ∀ u ∈ units, ∀ t ∈ u.topics, pyContains t ":" = true) →
      ∃ e, validate_topic_grammar code units = .error e ∧
        e.invariantId = "TG-COLON-MISSING") := by
  refine ⟨vtg_ok_iff code units, ?_⟩
  intro hnot
  cases h : validate_topic_grammar code units with
  | ok x =>
    cases x
    exact absurd ((vtg_ok_iff code units).mp h) hnot
  | error e =>
    exact ⟨e, rfl, vtg_error_id code units e h⟩

/-- Witness for C9: a colon-free topic produces the TG-COLON-MISSING error. -/
theorem c9_topic_grammar_witness :
    ∃ e, validate_topic_grammar "C"
        [⟨1, "T", ["no colon here"], [], none, none, none⟩] = .error e ∧
      e.invariantId = "TG-COLON-MISSING" :=
  (c9_topic_grammar "C" [⟨1, "T", ["no colon here"], [], none, none, none⟩]).2 (by decide)

/-- Counterexample for C9 as stated: a topic ending in a bare separator
(empty sub-item list after the `:`) passes the whole content-block grammar
validator, which the claim says must fail. -/
theorem c9_counterexample :
    validate_content_blocks "C" []
        [⟨1, "T", ["Intro:"], ["exp one"], none, none, none⟩] = .ok () ∧
    "Intro:".data.dropWhile (· ≠ ':') = [':'] := by
  constructor
  · rfl
  · rfl

end ValidateContentBlocks

namespace ValidateStructure

/-- Helper for C4: with all earlier units passing their per-unit checks,
the academic-theory loop fails at the first unit with experiments or
truthy (nonzero) lab/x hours, with one of the two forbidden-content ids. -/
theorem atLoop_first_offender (code : String) (u : UnitBlock)
    (hu : u.experiments ≠ [] ∨ optTruthy u.lab_hours = true ∨ optTruthy u.x_hours = true) :
    ∀ (pre : List UnitBlock), (∀ v ∈ pre, atUnitOk v) →
    ∀ (post : List UnitBlock) (total : Nat),
      ∃ e, atUnitsLoop code (pre ++ u :: post) total = .error e ∧
        (e.invariantId = "AT-EXPERIMENT-FORBIDDEN" ∨
         e.invariantId = "AT-NON-THEORY-HOURS-FORBIDDEN")
  | [], _, post, total => by
    simp only [List.nil_append, atUnitsLoop]
    by_cases h1 : u.experiments ≠ []
    · rw [if_pos h1]
      exact ⟨_, rfl, Or.inl rfl⟩
    · rw [if_neg h1]
      have h2 : (optTruthy u.lab_hours || optTruthy u.x_hours) = true := by
        rcases hu with h | h | h
        · exact absurd h h1
        · simp [h]
        · simp [h]
      rw [if_pos h2]
      exact ⟨_, rfl, Or.inr rfl⟩
  | v :: pre, hpre, post, total => by
    obtain ⟨he, hl, hx2, ht4, ht8, hsome, hnz⟩ := hpre v (List.mem_cons_self v pre)
    obtain ⟨n, hn⟩ := Option.isSome_iff_exists.mp hsome
    simp only [List.cons_append, atUnitsLoop]
    rw [if_neg (by simp [he]), if_neg (by simp [hl, hx2]),
        if_neg (by push_neg; exact ⟨ht4, ht8⟩),
        if_neg (by simp [hn]),
        if_neg (by rw [hn]; simpa using fun h => hnz (by rw [hn, h]))]
    exact atLoop_first_offender code u hu pre
      (fun w hw => hpre w (List.mem_cons_of_mem v hw)) post (total + v.total_hours)

/-- C4 (amended): in academic-theory validation, a unit with a non-empty
experiments list or *nonzero* lab/x hours is rejected with
AT-EXPERIMENT-FORBIDDEN or AT-NON-THEORY-HOURS-FORBIDDEN at the first such
unit, provided the unit-count and numbering checks pass and every earlier
unit passes its per-unit checks; a lab/x value explicitly declared as 0 is
falsy in the source's truthiness test and does not trigger the error. -/
theorem c4_theory_content_forbidden (code : String) (sections : List MarkdownSection)
    (ltpx : Int) (pre post : List UnitBlock) (u : UnitBlock)
    (hx : extract_units sections = pre ++ u :: post)
    (h5 : (pre ++ u :: post).length = 5)
    (hseq : checkUnitSequence code (pre ++ u :: post) "AT" = .ok ())
    (hpre : ∀ v ∈ pre, atUnitOk v)
    (hu : u.experiments ≠ [] ∨ optTruthy u.lab_hours = true ∨ optTruthy u.x_hours = true) :
    ∃ e, validate_academic_theory code sections ltpx = .error e ∧
      (e.invariantId = "AT-EXPERIMENT-FORBIDDEN" ∨
       e.invariantId = "AT-NON-THEORY-HOURS-FORBIDDEN") := by
  obtain ⟨e, he, hid⟩ := atLoop_first_offender code u hu pre hpre post 0
  refine ⟨e, ?_, hid⟩
  simp only [validate_academic_theory, hx, h5, hseq, he]
  rw [if_neg (by simp)]

/-- Witness for C4 (amended): a five-unit theory course whose first unit
records an experiment line is rejected with a forbidden-content id. -/
theorem c4_theory_content_forbidden_witness :
    ∃ e, validate_academic_theory "C" c4wsecs 75 = .error e ∧
      (e.invariantId = "AT-EXPERIMENT-FORBIDDEN" ∨
       e.invariantId = "AT-NON-THEORY-HOURS-FORBIDDEN") :=
  c4_theory_content_forbidden "C" c4wsecs 75 []
    c4wRest
    ⟨1, "", ["a: 1", "b: 1", "c: 1", "d: 1"], ["Do one experiment now"], some 15, none, none⟩
    (by decide) (by decide) (by decide)
    (by intro v hv; cases hv)
    (Or.inl (by decide))

/-- Counterexample for C4 as stated: a five-unit theory course passing the
unit-count and numbering checks whose first unit explicitly declares
`Lab Hours: 0` (a declared, non-absent lab value) is *accepted* by
`validate_academic_theory`, while the claim requires a
ValidationError for that unit. -/
theorem c4_counterexample :
    (extract_units c4secs).length = 5 ∧
    checkUnitSequence "C" (extract_units c4secs) "AT" = .ok () ∧
    (extract_units c4secs).map (·.lab_hours) = [some 0, none, none, none, none] ∧
    validate_academic_theory "C" c4secs 75 = .ok () := by
  refine ⟨by decide, by decide, by decide, by decide⟩

end ValidateStructure

namespace ValidateStructure

/-- Helper for C5: with all earlier units passing their per-unit checks and
this unit passing the checks that precede the lab-zero check, an explicitly
declared `lab_hours = 0` yields exactly the AI-LAB-HOUR-ZERO failure. -/
theorem aiLoop_lab_zero (code : String) (u : UnitBlock)
    (hexp1 : u.experiments ≠ []) (hexp4 : u.experiments.length ≤ 4)
    (htop : u.topics = [] ∨ (4 ≤ u.topics.length ∧ u.topics.length ≤ 8))
    (hth : u.theory_hours ≠ some 0) (hlab : u.lab_hours = some 0) :
    ∀ (pre : List UnitBlock), (∀ v ∈ pre, aiUnitOk v) →
    ∀ (post : List UnitBlock) (total : Nat),
      ∃ e, aiUnitsLoop code (pre ++ u :: post) total = .error e ∧
        e.invariantId = "AI-LAB-HOUR-ZERO"
  | [], _, post, total => by
    simp only [List.nil_append, aiUnitsLoop]
    rw [if_neg hexp1,
        if_neg (by push_neg; exact ⟨List.length_pos.mpr hexp1, hexp4⟩),
        if_neg (by
          rcases htop with h | h
          · exact fun hc => hc.1 h
          · exact fun hc => hc.2 h),
        if_neg (by
          rintro ⟨-, h2, -⟩
          rw [hlab] at h2
          cases h2),
        if_neg (by simpa using hth),
        if_pos (by simp [hlab])]
    exact ⟨_, rfl, rfl⟩
  | v :: pre, hpre, post, total => by
    obtain ⟨he1, he4, htp, hhb, hth0, hlb0, hx0⟩ := hpre v (List.mem_cons_self v pre)
    simp only [List.cons_append, aiUnitsLoop]
    rw [if_neg (by simpa using he1),
        if_neg (by push_neg; exact ⟨List.length_pos.mpr he1, he4⟩),
        if_neg (by
          rcases htp with h | h
          · exact fun hc => hc.1 h
          · exact fun hc => hc.2 h),
        if_neg hhb,
        if_neg (by simpa using hth0),
        if_neg (by simpa using hlb0),
        if_neg (by simpa using hx0)]
    exact aiLoop_lab_zero code u hexp1 hexp4 htop hth hlab pre
      (fun w hw => hpre w (List.mem_cons_of_mem v hw)) post (total + v.total_hours)

/-- Helper for C5: an AI-HOUR-BLOCK-MISSING failure of the integrated loop
can only come from a unit with all three hour fields absent. -/
theorem aiLoop_hour_block_missing (code : String) :
    ∀ (units : List UnitBlock) (total : Nat) (e : ValidationError),
      aiUnitsLoop code units total = .error e →
      e.invariantId = "AI-HOUR-BLOCK-MISSING" →
      ∃ u ∈ units, u.theory_hours = none ∧ u.lab_hours = none ∧ u.x_hours = none
  | [], total, e => by simp [aiUnitsLoop]
  | u :: rest, total, e => by
    intro h hid
    simp only [aiUnitsLoop] at h
    split at h
    · cases h
      exact absurd hid (show ("AI-EXPERIMENT-MISSING" : String) ≠ "AI-HOUR-BLOCK-MISSING" by decide)
    · split at h
      · cases h
        exact absurd hid (show ("AI-EXPERIMENT-COUNT" : String) ≠ "AI-HOUR-BLOCK-MISSING" by decide)
      · split at h
        · cases h
          exact absurd hid (show ("AI-TOPIC-CARDINALITY" : String) ≠ "AI-HOUR-BLOCK-MISSING" by decide)
        · split at h
          · rename_i hcond
            exact ⟨u, List.mem_cons_self u rest, hcond⟩
          · split at h
            · cases h
              exact absurd hid (show ("AI-THEORY-HOUR-ZERO" : String) ≠ "AI-HOUR-BLOCK-MISSING" by decide)
            · split at h
              · cases h
                exact absurd hid (show ("AI-LAB-HOUR-ZERO" : String) ≠ "AI-HOUR-BLOCK-MISSING" by decide)
              · split at h
                · cases h
                  exact absurd hid (show ("AI-X-HOUR-ZERO" : String) ≠ "AI-HOUR-BLOCK-MISSING" by decide)
                · obtain ⟨v, hv, hnone⟩ :=
                    aiLoop_hour_block_missing code rest (total + u.total_hours) e h hid
                  exact ⟨v, List.mem_cons_of_mem u hv, hnone⟩

/-- Helper: a `_check_unit_sequence` failure carries one of the two
numbering invariant ids. -/
theorem checkUnitSequence_error_id (code : String) (units : List UnitBlock)
    (tag : String) (e : ValidationError) :
    checkUnitSequence code units tag = .error e →
    e.invariantId = tag ++ "-UNIT-DUPLICATE" ∨ e.invariantId = tag ++ "-UNIT-ORDER" := by
  intro h
  simp only [checkUnitSequence] at h
  split at h
  · cases h; exact Or.inl rfl
  · split at h
    · cases h; exact Or.inr rfl
    · cases h

/-- C5 (amended): in academic-integrated validation, assuming the
unit-count and numbering checks pass, all earlier units pass their per-unit
checks, and the unit passes the experiment-count, topic-count and
theory-hour-zero checks that precede the lab check: an explicitly declared
`lab_hours = 0` fails with AI-LAB-HOUR-ZERO; and (distinctly) an
AI-HOUR-BLOCK-MISSING failure can only arise from a unit with all three of
theory, lab and x hours absent. -/
theorem c5_integrated_lab_zero (code : String) (sections : List MarkdownSection)
    (ltpx : Int) (pre post : List UnitBlock) (u : UnitBlock)
    (hx : extract_units sections = pre ++ u :: post)
    (h5 : (pre ++ u :: post).length = 5)
    (hseq : checkUnitSequence code (pre ++ u :: post) "AI" = .ok ())
    (hpre : ∀ v ∈ pre, aiUnitOk v)
    (hexp1 : u.experiments ≠ []) (hexp4 : u.experiments.length ≤ 4)
    (htop : u.topics = [] ∨ (4 ≤ u.topics.length ∧ u.topics.length ≤ 8))
    (hth : u.theory_hours ≠ some 0) :
    (u.lab_hours = some 0 →
      ∃ e, validate_academic_integrated code sections ltpx = .error e ∧
        e.invariantId = "AI-LAB-HOUR-ZERO") ∧
    (∀ e, validate_academic_integrated code sections ltpx = .error e →
      e.invariantId = "AI-HOUR-BLOCK-MISSING" →
      ∃ v ∈ extract_units sections,
        v.theory_hours = none ∧ v.lab_hours = none ∧ v.x_hours = none) := by
  constructor
  · intro hlab
    obtain ⟨e, he, hid⟩ :=
      aiLoop_lab_zero code u hexp1 hexp4 htop hth hlab pre hpre post 0
    refine ⟨e, ?_, hid⟩
    simp only [validate_academic_integrated, hx, h5, hseq, he]
    rw [if_neg (by simp)]
  · intro e h hid
    simp only [validate_academic_integrated] at h
    split at h
    · cases h
      exact absurd hid (show ("AI-UNIT-COUNT" : String) ≠ "AI-HOUR-BLOCK-MISSING" by decide)
    · split at h
      · rename_i f hf
        cases h
        rcases checkUnitSequence_error_id code _ "AI" _ hf with h2 | h2 <;> rw [h2] at hid <;>
          exact absurd hid (by decide)
      · split at h
        · rename_i f hf
          cases h
          exact aiLoop_hour_block_missing code _ 0 _ hf hid
        · split at h
          · cases h
            exact absurd hid (show ("AI-HOUR-MISMATCH" : String) ≠ "AI-HOUR-BLOCK-MISSING" by decide)
          · cases h

/-- Witness for C5 (amended): a five-unit integrated course whose first unit
declares `Lab Hours: 0` (theory absent) fails with AI-LAB-HOUR-ZERO, and the
hour-block-missing direction holds for it. -/
theorem c5_integrated_lab_zero_witness :
    ∃ e, validate_academic_integrated "C" c5wsecs 10 = .error e ∧
      e.invariantId = "AI-LAB-HOUR-ZERO" :=
  (c5_integrated_lab_zero "C" c5wsecs 10 []
    c5wRest
    ⟨1, "", [], ["One experiment here"], none, some 0, none⟩
    (by decide) (by decide) (by rfl)
    (by intro v hv; cases hv)
    (by decide) (by decide) (Or.inl rfl) (by decide)).1 rfl

/-- Counterexample for C5 as stated: a first unit declaring both
`theory_hours = 0` and `lab_hours = 0` satisfies every assumption the claim
lists (unit count, numbering, experiment-count and topic-count of earlier
units — vacuous for the first unit), yet validation fails with
AI-THEORY-HOUR-ZERO, not with the lab-hour-zero invariant. -/
theorem c5_counterexample :
    (extract_units c5secs).length = 5 ∧
    checkUnitSequence "C" (extract_units c5secs) "AI" = .ok () ∧
    (extract_units c5secs).head? = some ⟨1, "", [], ["one experiment"], some 0, some 0, none⟩ ∧
    validate_academic_integrated "C" c5secs 10 =
      .error ⟨"C", "AI-THEORY-HOUR-ZERO", "Unit 1: theory hours cannot be zero"⟩ := by
  refine ⟨by decide, by decide, by decide, by decide⟩

end ValidateStructure

namespace ValidateStructure

/-- Helper for C10: `processLine` updates the theory field exactly as the
per-line classifier dictates. -/
theorem processLine_theory (u : UnitBlock) (l : String) :
    (processLine u l).theory_hours = hourUpd (lineTheoryVal l) u.theory_hours := by
  simp only [processLine, lineTheoryVal, hourUpd]
  split
  · rfl
  · split
    · rfl
    · cases ht : searchHours theoryKws (pyStripChars l.data) with
      | some n => rfl
      | none =>
        cases hl : searchHours labKws (pyStripChars l.data) with
        | some n => rfl
        | none =>
          cases hx : searchHours xKws (pyStripChars l.data) with
          | some n => rfl
          | none =>
            by_cases hw : hasExpWord (pyStripChars l.data) = true <;> simp [hw]

/-- Helper for C10: `processLine` updates the lab field exactly as the
per-line classifier dictates. -/
theorem processLine_lab (u : UnitBlock) (l : String) :
    (processLine u l).lab_hours = hourUpd (lineLabVal l) u.lab_hours := by
  simp only [processLine, lineLabVal, hourUpd]
  split
  · rfl
  · split
    · rfl
    · cases ht : searchHours theoryKws (pyStripChars l.data) with
      | some n => rfl
      | none =>
        cases hl : searchHours labKws (pyStripChars l.data) with
        | some n => rfl
        | none =>
          cases hx : searchHours xKws (pyStripChars l.data) with
          | some n => rfl
          | none =>
            by_cases hw : hasExpWord (pyStripChars l.data) = true <;> simp [hw]

/-- Helper for C10: `processLine` updates the x field exactly as the
per-line classifier dictates. -/
theorem processLine_x (u : UnitBlock) (l : String) :
    (processLine u l).x_hours = hourUpd (lineXVal l) u.x_hours := by
  simp only [processLine, lineXVal, hourUpd]
  split
  · rfl
  · split
    · rfl
    · cases ht : searchHours theoryKws (pyStripChars l.data) with
      | some n => rfl
      | none =>
        cases hl : searchHours labKws (pyStripChars l.data) with
        | some n => rfl
        | none =>
          cases hx : searchHours xKws (pyStripChars l.data) with
          | some n => rfl
          | none =>
            by_cases hw : hasExpWord (pyStripChars l.data) = true <;> simp [hw]

/-- Helper for C10: the theory field of a body-line fold is the fold of the
per-line classifier values. -/
theorem foldl_processLine_theory : ∀ (ls : List String) (u : UnitBlock),
    (ls.foldl processLine u).theory_hours =
      ls.foldl (fun acc l => hourUpd (lineTheoryVal l) acc) u.theory_hours
  | [], u => rfl
  | l :: ls, u => by
    simp only [List.foldl_cons]
    rw [foldl_processLine_theory ls (processLine u l), processLine_theory]

/-- Helper for C10: lab-field analogue of `foldl_processLine_theory`. -/
theorem foldl_processLine_lab : ∀ (ls : List String) (u : UnitBlock),
    (ls.foldl processLine u).lab_hours =
      ls.foldl (fun acc l => hourUpd (lineLabVal l) acc) u.lab_hours
  | [], u => rfl
  | l :: ls, u => by
    simp only [List.foldl_cons]
    rw [foldl_processLine_lab ls (processLine u l), processLine_lab]

/-- Helper for C10: x-field analogue of `foldl_processLine_theory`. -/
theorem foldl_processLine_x : ∀ (ls : List String) (u : UnitBlock),
    (ls.foldl processLine u).x_hours =
      ls.foldl (fun acc l => hourUpd (lineXVal l) acc) u.x_hours
  | [], u => rfl
  | l :: ls, u => by
    simp only [List.foldl_cons]
    rw [foldl_processLine_x ls (processLine u l), processLine_x]

/-- Helper for C10: `getLast?` of a cons in update form. -/
theorem getLastQ_cons (n : Nat) (t : List Nat) :
    (n :: t).getLast? =
      match t.getLast? with
      | some v => some v
      | none => some n := by
  cases t with
  | nil => rfl
  | cons m t2 =>
    rw [List.getLast?_cons_cons]
    cases h : (m :: t2).getLast? with
    | none => simp at h
    | some v => rfl

/-- Helper for C10: a left fold of overwrite-updates lands on the last
declared value (or the start value when none is declared). -/
theorem foldl_hourUpd_getLast (f : String → Option Nat) :
    ∀ (ls : List String) (a : Option Nat),
      ls.foldl (fun acc l => hourUpd (f l) acc) a =
        match (ls.filterMap f).getLast? with
        | some v => some v
        | none => a
  | [], a => rfl
  | l :: ls, a => by
    cases hfl : f l with
    | none =>
      simp only [List.foldl_cons, List.filterMap_cons, hfl]
      exact foldl_hourUpd_getLast f ls a
    | some n =>
      simp only [List.foldl_cons, List.filterMap_cons, hfl]
      rw [getLastQ_cons]
      have ih := foldl_hourUpd_getLast f ls (some n)
      cases hgl : (ls.filterMap f).getLast? with
      | none => rw [hgl] at ih; exact ih
      | some v => rw [hgl] at ih; exact ih

/-- Helper for C10: over a run of sections with no unit heading, the
extractor folds every body line into the current unit. -/
theorem extractGo_noHeader : ∀ (secs : List MarkdownSection),
    (∀ s ∈ secs, searchUnitHeader s.title = none) → ∀ (u : UnitBlock),
    extractUnitsGo (some u) secs =
      [secs.foldl (fun v s => (pySplitlines s.body).foldl processLine v) u]
  | [], _, u => rfl
  | sec :: rest, h, u => by
    have hs := h sec (List.mem_cons_self sec rest)
    simp only [extractUnitsGo, hs, List.foldl_cons]
    exact extractGo_noHeader rest (fun s hs2 => h s (List.mem_cons_of_mem sec hs2)) _

/-- Helper for C10: folding section-by-section equals folding the
concatenated body lines. -/
theorem foldl_secs_allLines : ∀ (secs : List MarkdownSection) (u : UnitBlock),
    secs.foldl (fun v s => (pySplitlines s.body).foldl processLine v) u =
      (allLines secs).foldl processLine u
  | [], u => rfl
  | sec :: rest, u => by
    simp only [List.foldl_cons, allLines, List.map_cons, List.flatten_cons, List.foldl_append]
    exact foldl_secs_allLines rest _

/-- C10: when a single unit's accumulated body declares the same hour field
two or more times, `extract_units` stores the value of the last declaration
in line order (duplicate declarations overwrite — last write wins), for each
of the theory, lab and x fields. -/
theorem c10_last_write_wins (hdr : MarkdownSection) (rest : List MarkdownSection)
    (num : Nat) (rawTitle : String)
    (hh : searchUnitHeader hdr.title = some (num, rawTitle))
    (hb : ∀ s ∈ rest, searchUnitHeader s.title = none) :
    ∃ u, extract_units (hdr :: rest) = [u] ∧
      (2 ≤ ((allLines rest).filterMap lineTheoryVal).length →
        u.theory_hours = ((allLines rest).filterMap lineTheoryVal).getLast?) ∧
      (2 ≤ ((allLines rest).filterMap lineLabVal).length →
        u.lab_hours = ((allLines rest).filterMap lineLabVal).getLast?) ∧
      (2 ≤ ((allLines rest).filterMap lineXVal).length →
        u.x_hours = ((allLines rest).filterMap lineXVal).getLast?) := by
  refine ⟨(allLines rest).foldl processLine (newUnit num rawTitle), ?_, ?_, ?_, ?_⟩
  · simp only [extract_units, extractUnitsGo, hh]
    rw [extractGo_noHeader rest hb (newUnit num rawTitle), foldl_secs_allLines]
  · intro hlen
    rw [foldl_processLine_theory, foldl_hourUpd_getLast]
    cases hgl : ((allLines rest).filterMap lineTheoryVal).getLast? with
    | some v => rfl
    | none =>
      rw [List.getLast?_eq_none_iff] at hgl
      rw [hgl] at hlen
      exact absurd hlen (by decide)
  · intro hlen
    rw [foldl_processLine_lab, foldl_hourUpd_getLast]
    cases hgl : ((allLines rest).filterMap lineLabVal).getLast? with
    | some v => rfl
    | none =>
      rw [List.getLast?_eq_none_iff] at hgl
      rw [hgl] at hlen
      exact absurd hlen (by decide)
  · intro hlen
    rw [foldl_processLine_x, foldl_hourUpd_getLast]
    cases hgl : ((allLines rest).filterMap lineXVal).getLast? with
    | some v => rfl
    | none =>
      rw [List.getLast?_eq_none_iff] at hgl
      rw [hgl] at hlen
      exact absurd hlen (by decide)

/-- Witness for C10: each hour field declared twice; the extracted unit
holds the later values (7, 6, 4). -/
theorem c10_last_write_wins_witness :
    ∃ u, extract_units
        (⟨"Unit 1", ""⟩ ::
          [(⟨"part",
             "Theory Hours: 3\nLab Hours: 2\nTheory Hours: 7\nLab Hours: 6\nX Hours: 1\nX Hours: 4"⟩ :
            MarkdownSection)]) = [u] ∧
      (2 ≤ ((allLines
          [⟨"part",
            "Theory Hours: 3\nLab Hours: 2\nTheory Hours: 7\nLab Hours: 6\nX Hours: 1\nX Hours: 4"⟩]).filterMap
            lineTheoryVal).length →
        u.theory_hours = ((allLines
          [⟨"part",
            "Theory Hours: 3\nLab Hours: 2\nTheory Hours: 7\nLab Hours: 6\nX Hours: 1\nX Hours: 4"⟩]).filterMap
            lineTheoryVal).getLast?) ∧
      (2 ≤ ((allLines
          [⟨"part",
            "Theory Hours: 3\nLab Hours: 2\nTheory Hours: 7\nLab Hours: 6\nX Hours: 1\nX Hours: 4"⟩]).filterMap
            lineLabVal).length →
        u.lab_hours = ((allLines
          [⟨"part",
            "Theory Hours: 3\nLab Hours: 2\nTheory Hours: 7\nLab Hours: 6\nX Hours: 1\nX Hours: 4"⟩]).filterMap
            lineLabVal).getLast?) ∧
      (2 ≤ ((allLines
          [⟨"part",
            "Theory Hours: 3\nLab Hours: 2\nTheory Hours: 7\nLab Hours: 6\nX Hours: 1\nX Hours: 4"⟩]).filterMap
            lineXVal).length →
        u.x_hours = ((allLines
          [⟨"part",
            "Theory Hours: 3\nLab Hours: 2\nTheory Hours: 7\nLab Hours: 6\nX Hours: 1\nX Hours: 4"⟩]).filterMap
            lineXVal).getLast?) :=
  c10_last_write_wins ⟨"Unit 1", ""⟩
    [⟨"part", "Theory Hours: 3\nLab Hours: 2\nTheory Hours: 7\nLab Hours: 6\nX Hours: 1\nX Hours: 4"⟩]
    1 "" (by decide) (by decide)

end ValidateStructure

namespace ReadCourses

/-- Helper for C8: with no fence lines and the scanner out of code mode,
the scan plus final flush emits exactly `emitAll` of the current
accumulation. -/
theorem tokRun_spec : ∀ (lines : List String) (st : TokState),
    st.inCode = false →
    (∀ l ∈ lines, fenceInfo (pyLstripChars l.data) = none) →
    (lines.foldl tokStep st).secs ++ [flushSec (lines.foldl tokStep st)] =
      st.secs ++ emitAll st.curLevel st.curTitle st.curBody lines
  | [], st, _, _ => rfl
  | l :: ls, st, hc, hf => by
    have hfl := hf l (List.mem_cons_self l ls)
    have hrest : ∀ x ∈ ls, fenceInfo (pyLstripChars x.data) = none :=
      fun x hx => hf x (List.mem_cons_of_mem l hx)
    simp only [List.foldl_cons, emitAll]
    cases hh : headerInfo (pyLstripChars l.data) with
    | some p =>
      obtain ⟨i, t⟩ := p
      have hstep : tokStep st l =
          { st with secs := st.secs ++ [flushSec st],
                    curLevel := i, curTitle := t, curBody := [] } := by
        simp [tokStep, hfl, hc, hh]
      rw [hstep, tokRun_spec ls
        { st with secs := st.secs ++ [flushSec st],
                  curLevel := i, curTitle := t, curBody := [] } hc hrest]
      simp [flushSec]
    | none =>
      have hstep : tokStep st l = { st with curBody := st.curBody ++ [l] } := by
        simp [tokStep, hfl, hc, hh]
      rw [hstep, tokRun_spec ls { st with curBody := st.curBody ++ [l] } hc hrest]

/-- Helper for C8: `emitAll` emits one section per heading line plus one. -/
theorem emitAll_length : ∀ (lines : List String) (lvl : Nat) (title : String)
    (body : List String),
    (emitAll lvl title body lines).length = 1 + (lines.filter isHeadingLine).length
  | [], _, _, _ => rfl
  | l :: ls, lvl, title, body => by
    simp only [emitAll, List.filter_cons]
    cases hh : headerInfo (pyLstripChars l.data) with
    | some p =>
      obtain ⟨i, t⟩ := p
      have hhl : isHeadingLine l = true := by simp [isHeadingLine, hh]
      simp [hhl, emitAll_length ls i t []]
      omega
    | none =>
      have hhl : isHeadingLine l = false := by simp [isHeadingLine, hh]
      simp [hhl, emitAll_length ls lvl title (body ++ [l])]

/-- Helper for C8: the titles `emitAll` emits are the current title followed
by the heading titles in order. -/
theorem emitAll_titles : ∀ (lines : List String) (lvl : Nat) (title : String)
    (body : List String),
    (emitAll lvl title body lines).map (·.title) = title :: headingTitles lines
  | [], _, _, _ => rfl
  | l :: ls, lvl, title, body => by
    simp only [emitAll, headingTitles, List.filterMap_cons]
    cases hh : headerInfo (pyLstripChars l.data) with
    | some p =>
      obtain ⟨i, t⟩ := p
      simp only [Option.map_some, List.map_cons]
      rw [show (emitAll i t [] ls).map (·.title) = t :: headingTitles ls from
        emitAll_titles ls i t []]
      rfl
    | none =>
      simp only [Option.map_none]
      exact emitAll_titles ls lvl title (body ++ [l])

/-- Helper for C8: `emitAll` starts with the section accumulated up to the
first heading line, followed by `emitTail` of the remaining lines. -/
theorem emitAll_head : ∀ (lines : List String) (lvl : Nat) (title : String)
    (body : List String),
    emitAll lvl title body lines =
      ⟨lvl, title, joinTrim (body ++ lines.takeWhile (fun l => !isHeadingLine l))⟩ ::
        emitTail (lines.dropWhile (fun l => !isHeadingLine l))
  | [], lvl, title, body => by simp [emitAll, emitTail]
  | l :: ls, lvl, title, body => by
    simp only [emitAll, emitTail, List.takeWhile_cons, List.dropWhile_cons]
    cases hh : headerInfo (pyLstripChars l.data) with
    | some p =>
      obtain ⟨i, t⟩ := p
      have hhl : isHeadingLine l = true := by simp [isHeadingLine, hh]
      simp [hhl, emitTail, hh]
    | none =>
      have hhl : isHeadingLine l = false := by simp [isHeadingLine, hh]
      have ih := emitAll_head ls lvl title (body ++ [l])
      simp only [hhl, Bool.not_false, if_true]
      rw [ih]
      simp

/-- Helper for C8: the tokenizer output over fence-free lines, in terms of
the heading structure: the preamble section is kept exactly when the text
before the first heading has non-empty trimmed body. -/
theorem tokenizeLines_spec (lines : List String)
    (hnf : ∀ l ∈ lines, fenceInfo (pyLstripChars l.data) = none) :
    (joinTrim (lines.takeWhile (fun l => !isHeadingLine l)) = "" →
      (tokenizeLines lines).length = (lines.filter isHeadingLine).length ∧
      (tokenizeLines lines).map (·.title) = headingTitles lines) ∧
    (joinTrim (lines.takeWhile (fun l => !isHeadingLine l)) ≠ "" →
      (tokenizeLines lines).length = (lines.filter isHeadingLine).length + 1 ∧
      (tokenizeLines lines).head? =
        some ⟨0, "__PREAMBLE__", joinTrim (lines.takeWhile (fun l => !isHeadingLine l))⟩ ∧
      (tokenizeLines lines).map (·.title) = "__PREAMBLE__" :: headingTitles lines) := by
  have hall : (lines.foldl tokStep initState).secs ++
      [flushSec (lines.foldl tokStep initState)] = emitAll 0 "__PREAMBLE__" [] lines :=
    tokRun_spec lines initState rfl hnf
  have hemit := emitAll_head lines 0 "__PREAMBLE__" []
  simp only [List.nil_append] at hemit
  have hlen := emitAll_length lines 0 "__PREAMBLE__" []
  have htit := emitAll_titles lines 0 "__PREAMBLE__" []
  have htok : tokenizeLines lines =
      (if joinTrim (lines.takeWhile (fun l => !isHeadingLine l)) = "" then
        emitTail (lines.dropWhile (fun l => !isHeadingLine l))
      else emitAll 0 "__PREAMBLE__" [] lines) := by
    simp only [tokenizeLines, hall, hemit]
    by_cases hp : joinTrim (lines.takeWhile (fun l => !isHeadingLine l)) = ""
    · rw [if_pos hp, if_pos ⟨trivial, hp⟩]
    · rw [if_neg hp, if_neg (fun hc2 => hp hc2.2), ← hemit]
  constructor
  · intro hpre
    rw [htok, if_pos hpre]
    rw [hemit, List.length_cons] at hlen
    rw [hemit, List.map_cons] at htit
    exact ⟨by omega, (List.cons_eq_cons.mp htit).2⟩
  · intro hpre
    rw [htok, if_neg hpre]
    refine ⟨by omega, ?_, htit⟩
    rw [hemit]
    rfl

/-- C8: for fence-free input, the tokenizer returns exactly one section per
valid heading line — plus a leading level-0 preamble section exactly when
the text before the first heading has non-empty trimmed body — in the order
the headings were encountered. -/
theorem c8_tokenizer_sections (md : String)
    (hnf : ∀ l ∈ pySplitlines md, fenceInfo (pyLstripChars l.data) = none) :
    (joinTrim ((pySplitlines md).takeWhile (fun l => !isHeadingLine l)) = "" →
      (split_markdown_sections md).length =
        ((pySplitlines md).filter isHeadingLine).length ∧
      (split_markdown_sections md).map (·.title) = headingTitles (pySplitlines md)) ∧
    (joinTrim ((pySplitlines md).takeWhile (fun l => !isHeadingLine l)) ≠ "" →
      (split_markdown_sections md).length =
        ((pySplitlines md).filter isHeadingLine).length + 1 ∧
      (split_markdown_sections md).head? =
        some ⟨0, "__PREAMBLE__",
              joinTrim ((pySplitlines md).takeWhile (fun l => !isHeadingLine l))⟩ ∧
      (split_markdown_sections md).map (·.title) =
        "__PREAMBLE__" :: headingTitles (pySplitlines md)) :=
  tokenizeLines_spec (pySplitlines md) hnf

end ReadCourses

namespace ReadCourses

/-- Witness for C8: a document with a non-empty preamble and two headings
yields three sections, preamble first, heading titles in order. -/
theorem c8_tokenizer_sections_witness :
    (split_markdown_sections "intro\n# Alpha\ntext\n## Beta").length =
      ((pySplitlines "intro\n# Alpha\ntext\n## Beta").filter isHeadingLine).length + 1 ∧
    (split_markdown_sections "intro\n# Alpha\ntext\n## Beta").head? =
      some ⟨0, "__PREAMBLE__",
            joinTrim ((pySplitlines "intro\n# Alpha\ntext\n## Beta").takeWhile
              (fun l => !isHeadingLine l))⟩ ∧
    (split_markdown_sections "intro\n# Alpha\ntext\n## Beta").map (·.title) =
      "__PREAMBLE__" :: headingTitles (pySplitlines "intro\n# Alpha\ntext\n## Beta") :=
  (c8_tokenizer_sections "intro\n# Alpha\ntext\n## Beta" (by decide)).2 (by decide)

end ReadCourses

namespace InferContentShape

/-- Witness for C3: the (FCM, TC) policy entry, concretely, has a category
outside the override-only set. -/
theorem c3_policy_table_guard_witness :
    ((((.FCM, .TC), .ACADEMIC_THEORY) :
      (CourseCategory × CourseType) × ContentShape)).1.1 ∉ FORBIDDEN_POLICY_CATEGORIES :=
  c3_policy_table_guard.2 ((.FCM, .TC), .ACADEMIC_THEORY) (by decide)

end InferContentShape
